import Mathlib

/-!
Verification development for the remote-administration demo application.

The embedding below translates, from the TypeScript sources:
  - src/lib/deviceSimulator.ts  (namespace DeviceSimulator)
  - src/lib/auth.ts             (namespace Auth)
  - src/lib/database.ts         (namespace Database, retention sweep)
  - src/app/api/socket/route.ts (namespace Relay, the session relay)

Nondeterministic inputs of the JS runtime (uuids, Date.now, ISO time
strings) are passed explicitly as parameters.  Machine state that the
source keeps in module-level mutable maps is made an explicit state
record threaded through the handlers.
-/

namespace DeviceSimulator

/-- Device descriptor, from interface MockDeviceInfo in deviceSimulator.ts. -/
structure MockDeviceInfo where
  id : String
  name : String
  model : String
  androidVersion : String
  apiLevel : Nat
  manufacturer : String
  brand : String
  hardware : String
  ram : String
  storage : String
  batteryLevel : Nat
  screenResolution : String
  networkType : String
  connected : Bool
  lastSeen : String
deriving Repr, DecidableEq

/-- The static device table of DeviceSimulator.devices; the source
initialises each lastSeen with the current ISO time, passed here as t. -/
def initialDevices (t : String) : List MockDeviceInfo :=
  [ { id := "device-001", name := "Samsung Galaxy S23", model := "SM-S911B",
      androidVersion := "14.0", apiLevel := 34, manufacturer := "Samsung",
      brand := "samsung", hardware := "qcom", ram := "8GB", storage := "256GB",
      batteryLevel := 85, screenResolution := "1080x2340", networkType := "WiFi",
      connected := false, lastSeen := t },
    { id := "device-002", name := "Google Pixel 8 Pro", model := "Pixel 8 Pro",
      androidVersion := "14.0", apiLevel := 34, manufacturer := "Google",
      brand := "google", hardware := "tensor", ram := "12GB", storage := "512GB",
      batteryLevel := 72, screenResolution := "1344x2992", networkType := "5G",
      connected := false, lastSeen := t },
    { id := "device-003", name := "OnePlus 11", model := "CPH2447",
      androidVersion := "13.0", apiLevel := 33, manufacturer := "OnePlus",
      brand := "oneplus", hardware := "qcom", ram := "16GB", storage := "1TB",
      batteryLevel := 94, screenResolution := "1440x3216", networkType := "5G",
      connected := false, lastSeen := t } ]

/-- DeviceSimulator.getDeviceById: first device whose id matches, else null. -/
def getDeviceById (devices : List MockDeviceInfo) (deviceId : String) :
    Option MockDeviceInfo :=
  devices.find? (fun d => d.id == deviceId)

/-- The connected flag the device table reports for a device id (null when
the id is absent). -/
def connFlag (devices : List MockDeviceInfo) (deviceId : String) :
    Option Bool :=
  (getDeviceById devices deviceId).map (fun dev => dev.connected)

/-- DeviceSimulator.updateDeviceConnection: mutates the first device whose id
matches, setting its connected flag and lastSeen; no-op when absent. -/
def updateDeviceConnection :
    List MockDeviceInfo → String → Bool → String → List MockDeviceInfo
  | [], _, _, _ => []
  | d :: ds, deviceId, connected, nowIso =>
    if d.id == deviceId then
      { d with connected := connected, lastSeen := nowIso } :: ds
    else
      d :: updateDeviceConnection ds deviceId connected nowIso

inductive FileKind
  | file
  | directory
deriving Repr, DecidableEq

/-- File entry, from interface MockFile in deviceSimulator.ts. -/
structure MockFile where
  name : String
  path : String
  kind : FileKind
  size : Nat
  lastModified : String
  permissions : String
deriving Repr, DecidableEq

/-- The commonFiles table in DeviceSimulator.getFileSystem. -/
def commonFiles : List MockFile :=
  [ { name := "Android", path := "/Android", kind := .directory, size := 0,
      lastModified := "2024-01-15 10:30:00", permissions := "drwxr-xr-x" },
    { name := "DCIM", path := "/DCIM", kind := .directory, size := 0,
      lastModified := "2024-01-20 14:22:00", permissions := "drwxr-xr-x" },
    { name := "Download", path := "/Download", kind := .directory, size := 0,
      lastModified := "2024-01-22 09:15:00", permissions := "drwxr-xr-x" },
    { name := "Documents", path := "/Documents", kind := .directory, size := 0,
      lastModified := "2024-01-18 16:45:00", permissions := "drwxr-xr-x" },
    { name := "Pictures", path := "/Pictures", kind := .directory, size := 0,
      lastModified := "2024-01-21 11:30:00", permissions := "drwxr-xr-x" },
    { name := "Music", path := "/Music", kind := .directory, size := 0,
      lastModified := "2024-01-19 13:20:00", permissions := "drwxr-xr-x" },
    { name := "Videos", path := "/Videos", kind := .directory, size := 0,
      lastModified := "2024-01-20 15:10:00", permissions := "drwxr-xr-x" } ]

/-- DeviceSimulator.getFileSystem: a fixed path-keyed lookup; the deviceId
parameter is received but never consulted by the source. -/
def getFileSystem (_deviceId : String) (path : String) : List MockFile :=
  if path == "/" || path == "" then
    commonFiles
  else if path == "/DCIM" then
    [ { name := "Camera", path := "/DCIM/Camera", kind := .directory, size := 0,
        lastModified := "2024-01-20 14:22:00", permissions := "drwxr-xr-x" } ]
  else if path == "/Download" then
    [ { name := "document.pdf", path := "/Download/document.pdf", kind := .file,
        size := 2048576, lastModified := "2024-01-22 09:15:00",
        permissions := "-rw-r--r--" },
      { name := "image.jpg", path := "/Download/image.jpg", kind := .file,
        size := 1536000, lastModified := "2024-01-21 18:30:00",
        permissions := "-rw-r--r--" } ]
  else
    []

/-- Command result, from interface MockCommand in deviceSimulator.ts; the
output and exitCode fields are read off a JS object lookup and can be
undefined at runtime (modelled as none), see executeCommand below. -/
structure MockCommand where
  id : String
  command : String
  output : Option String
  exitCode : Option Nat
  timestamp : String
deriving Repr, DecidableEq

/-- An ASCII single quote, kept out of string literals. -/
def squote : String := String.singleton (Char.ofNat 39)

/-- The commandOutputs table in DeviceSimulator.executeCommand; the date
entry echoes the current time string, passed here as nowStr. -/
def commandOutputs (nowStr : String) : List (String × String × Nat) :=
  [ ("ls", "Android\nDCIM\nDownload\nDocuments\nPictures\nMusic\nVideos", 0),
    ("pwd", "/storage/emulated/0", 0),
    ("whoami", "u0_a123", 0),
    ("date", nowStr, 0),
    ("ps", "USER     PID   PPID  VSIZE  RSS     WCHAN    PC        NAME\nroot      1     0     1896   788   ffffffff 00000000 S /init\nsystem    123   1     2384   1256  ffffffff 00000000 S /system/bin/servicemanager", 0),
    ("df", "Filesystem     1K-blocks    Used Available Use% Mounted on\n/dev/fuse      249999360 123456789 126542571  50% /storage/emulated", 0),
    ("getprop", "[ro.build.version.release]: [14]\n[ro.build.version.sdk]: [34]\n[ro.product.model]: [SM-S911B]", 0) ]

/-- JS String.prototype.toLowerCase, character by character (the command
table's keys are ASCII, where the two coincide). -/
def jsToLowerCase (s : String) : String := String.mk (s.data.map Char.toLower)

/-- The default branch message of executeCommand for an unknown command. -/
def notFoundOutput (command : String) : String :=
  "Command " ++ squote ++ command ++ squote ++
    " not found or not supported in simulation"

/-- The property names of Object.prototype in a JS runtime.  The source
indexes commandOutputs, a plain object literal, with bracket access, which
falls through to the prototype chain: reading any of these names returns
an inherited function or object — a truthy value, never undefined. -/
def objectPrototypeProps : List String :=
  ["constructor", "hasOwnProperty", "isPrototypeOf", "propertyIsEnumerable",
   "toLocaleString", "toString", "valueOf", "__defineGetter__",
   "__defineSetter__", "__lookupGetter__", "__lookupSetter__", "__proto__"]

/-- DeviceSimulator.executeCommand: evaluates
commandOutputs[command.toLowerCase()] with JS object-literal semantics and
applies the not-found default with exit code 127 only when that read is
falsy.  An own key of the table yields its canned entry; a key naming an
Object.prototype property yields the inherited truthy value, so the
default is skipped and the output and exitCode fields read from it are
undefined (none); any other key reads undefined and takes the default.
uuid is the generated command id, nowIso the ISO timestamp; the deviceId
parameter is received but never consulted by the source. -/
def executeCommand (uuid nowStr nowIso : String) (_deviceId command : String) :
    MockCommand :=
  match (commandOutputs nowStr).find? (fun e => e.1 == jsToLowerCase command) with
  | some e =>
    { id := uuid, command := command, output := some e.2.1,
      exitCode := some e.2.2, timestamp := nowIso }
  | none =>
    if jsToLowerCase command ∈ objectPrototypeProps then
      { id := uuid, command := command, output := none,
        exitCode := none, timestamp := nowIso }
    else
      { id := uuid, command := command,
        output := some (notFoundOutput command),
        exitCode := some 127, timestamp := nowIso }

/-- App entry, from interface MockApp in deviceSimulator.ts. -/
structure MockApp where
  packageName : String
  appName : String
  version : String
  icon : String
  size : String
  category : String
  system : Bool
deriving Repr, DecidableEq

/-- DeviceSimulator.getInstalledApps: a static catalog; the deviceId
parameter is received but never consulted by the source. -/
def getInstalledApps (_deviceId : String) : List MockApp :=
  [ { packageName := "com.android.chrome", appName := "Chrome",
      version := "118.0.5993.88",
      icon := "https://placehold.co/64x64?text=Chrome", size := "145MB",
      category := "Web Browser", system := false },
    { packageName := "com.whatsapp", appName := "WhatsApp",
      version := "2.23.21.76", icon := "https://placehold.co/64x64?text=WA",
      size := "89MB", category := "Communication", system := false },
    { packageName := "com.instagram.android", appName := "Instagram",
      version := "302.0.0.23.113",
      icon := "https://placehold.co/64x64?text=IG", size := "78MB",
      category := "Social Media", system := false },
    { packageName := "com.spotify.music", appName := "Spotify",
      version := "8.8.62.488", icon := "https://placehold.co/64x64?text=Spot",
      size := "67MB", category := "Music", system := false },
    { packageName := "com.android.settings", appName := "Settings",
      version := "14.0", icon := "https://placehold.co/64x64?text=Set",
      size := "12MB", category := "System", system := true },
    { packageName := "com.google.android.gms", appName := "Google Play Services",
      version := "23.42.17", icon := "https://placehold.co/64x64?text=GPS",
      size := "234MB", category := "System", system := true } ]

/-- The record returned by DeviceSimulator.recordAudio. -/
structure AudioRecording where
  audioUrl : String
  duration : Nat
  size : Nat
deriving Repr, DecidableEq

/-- DeviceSimulator.recordAudio: the audio URL text (built from the clock)
is passed in as produced; size is the 16KB-per-second approximation. -/
def recordAudio (audioUrl : String) (duration : Nat) : AudioRecording :=
  { audioUrl := audioUrl, duration := duration, size := duration * 16000 }

end DeviceSimulator

namespace Auth

/-- Token role, from the type field of JWTPayload in auth.ts. -/
inductive TokenType
  | admin
  | device
deriving Repr, DecidableEq

/-- Decoded token payload, from interface JWTPayload in auth.ts. -/
structure JWTPayload where
  userId : String
  deviceId : Option String
  type : TokenType
  iat : Option Nat
  exp : Option Nat
deriving Repr, DecidableEq

/-- A signed token as produced by the jsonwebtoken library: the claims it
encodes, the secret it was signed with, and whether its signature is still
intact (false models tampering). -/
structure SignedJWT where
  userId : String
  deviceId : Option String
  type : TokenType
  iat : Nat
  exp : Nat
  secret : String
  intact : Bool
deriving Repr, DecidableEq

/-- A token string on the wire: either a well-formed signed token or garbage
that the library cannot parse at all. -/
inductive TokenString
  | signed (t : SignedJWT)
  | malformed (raw : String)
deriving Repr, DecidableEq

/-- The JWT_SECRET constant of auth.ts (its env-default value). -/
def JWT_SECRET : String := "remote-control-android-secret-key-2024"

/-- The JWT_EXPIRES_IN constant of auth.ts, 24h, in seconds. -/
def JWT_EXPIRES_IN_SECONDS : Nat := 24 * 60 * 60

/-- Model of jwt.sign(payload, secret, \x7bexpiresIn\x7d) at integer clock
time now (seconds): embeds iat = now and exp = now + expiresIn and signs
with the given secret. -/
def jwtSign (userId : String) (deviceId : Option String) (type : TokenType)
    (secret : String) (expiresInSec now : Nat) : TokenString :=
  .signed { userId := userId, deviceId := deviceId, type := type,
            iat := now, exp := now + expiresInSec,
            secret := secret, intact := true }

/-- Model of jwt.verify(token, secret) at clock time now: fails (throws in
JS; none here, matching the catch in verifyToken) unless the token parses,
its signature is intact and matches the secret, and now < exp (the library
raises TokenExpiredError once the clock reaches exp). -/
def jwtVerify (tok : TokenString) (secret : String) (now : Nat) :
    Option JWTPayload :=
  match tok with
  | .malformed _ => none
  | .signed t =>
    if t.intact = false then none
    else if t.secret != secret then none
    else if t.exp ≤ now then none
    else some { userId := t.userId, deviceId := t.deviceId, type := t.type,
                iat := some t.iat, exp := some t.exp }

/-- auth.ts generateToken: jwt.sign with JWT_SECRET and the 24h expiry. -/
def generateToken (now : Nat) (userId : String) (deviceId : Option String)
    (type : TokenType) : TokenString :=
  jwtSign userId deviceId type JWT_SECRET JWT_EXPIRES_IN_SECONDS now

/-- auth.ts verifyToken: jwt.verify under JWT_SECRET, null on any failure. -/
def verifyToken (now : Nat) (tok : TokenString) : Option JWTPayload :=
  jwtVerify tok JWT_SECRET now

/-- auth.ts generateAdminToken. -/
def generateAdminToken (now : Nat) (adminId : String) : TokenString :=
  generateToken now adminId none .admin

/-- auth.ts generateDeviceToken. -/
def generateDeviceToken (now : Nat) (adminId deviceId : String) : TokenString :=
  generateToken now adminId (some deviceId) .device

end Auth

namespace Database

/-- A row of the sessions table (database.ts); DATETIME columns are modelled
as integer seconds since the epoch. -/
structure SessionRow where
  id : String
  deviceId : String
  adminId : String
  token : String
  active : Bool
  createdAt : Nat
  expiresAt : Nat
deriving Repr, DecidableEq

/-- A row of the activity_logs table (database.ts). -/
structure ActivityRow where
  id : String
  deviceId : String
  adminId : String
  action : String
  details : String
  timestamp : Nat
deriving Repr, DecidableEq

/-- A row of the commands table (database.ts). -/
structure CommandRow where
  id : String
  deviceId : String
  command : String
  status : String
  output : Option String
  error : Option String
  createdAt : Nat
  executedAt : Option Nat
deriving Repr, DecidableEq

/-- The store state touched by cleanupExpiredData. -/
structure DBState where
  sessions : List SessionRow
  activityLogs : List ActivityRow
  commands : List CommandRow
deriving Repr, DecidableEq

def secondsPerDay : Nat := 86400

/-- database.ts cleanupExpiredData at clock time now (seconds):
deactivates sessions with expires_at <= now that are still active, deletes
activity_logs rows with timestamp < now - 30 days, and deletes commands
rows with created_at < now - 7 days. -/
def cleanupExpiredData (now : Nat) (db : DBState) : DBState :=
  { sessions := db.sessions.map (fun s =>
      if s.expiresAt ≤ now ∧ s.active = true then { s with active := false }
      else s),
    activityLogs := db.activityLogs.filter (fun a =>
      !(a.timestamp < now - 30 * secondsPerDay)),
    commands := db.commands.filter (fun c =>
      !(c.createdAt < now - 7 * secondsPerDay)) }

end Database

namespace Relay

open Auth DeviceSimulator

/-- The value stored in the connectedDevices map by the device:register
handler: the spread deviceInfo blob (kept opaque), the registering socket id
and the ISO connection time. -/
structure DeviceRegistration where
  deviceInfo : String
  socketId : String
  connectedAt : String
deriving Repr, DecidableEq

/-- The fields of an activity_logs insert issued by the relay handlers
(details payloads are kept opaque and omitted). -/
structure ActivityEntry where
  deviceId : String
  adminId : String
  action : String
deriving Repr, DecidableEq

/-- Payloads of the relay's reply and broadcast events. -/
inductive EventPayload
  | authResult (success : Bool) (adminId : Option String) (error : Option String)
  | devicesList (devices : List DeviceRegistration)
  | deviceConnect (deviceId : String) (deviceInfo : String)
  | deviceRegistered (success : Bool) (deviceId : String)
  | deviceDisconnect (deviceId : String)
  | screenUpdate (deviceId screenshot : String)
  | commandResult (deviceId commandId : String) (output : Option String)
      (exitCode : Option Nat) (timestamp : String)
  | fileList (deviceId path : String) (files : List MockFile)
  | locationUpdate (deviceId location : String)
  | cameraResult (deviceId camera imageUrl : String)
  | audioResult (deviceId : String) (audio : AudioRecording)
  | appList (deviceId : String) (apps : List MockApp)
  | notificationSent (deviceId message : String) (success : Bool)
deriving Repr, DecidableEq

/-- One emitted event, with the concrete fan-out computed at emit time:
socket.emit delivers to the one socket, socket.to(room).emit delivers to
every member of the room other than the sender. -/
structure Delivery where
  event : String
  payload : EventPayload
  recipients : List String
deriving Repr, DecidableEq

/-- The relay's mutable state: the module-level connectedDevices and
adminSessions maps of route.ts, the socket.io room membership table, the
DeviceSimulator.devices table, the activity log, and the event history. -/
structure RelayState where
  connectedDevices : List (String × DeviceRegistration)
  adminSessions : List (String × String)
  rooms : List (String × String)
  simDevices : List MockDeviceInfo
  activity : List ActivityEntry
  emitted : List Delivery
deriving Repr, DecidableEq

/-- JS Map.prototype.set: replaces in place when the key exists, appends
otherwise (Map preserves insertion order). -/
def mapSet {α : Type} (k : String) (v : α) :
    List (String × α) → List (String × α)
  | [] => [(k, v)]
  | (k0, v0) :: rest =>
    if k0 == k then (k, v) :: rest else (k0, v0) :: mapSet k v rest

/-- JS Map.prototype.get: value of the first entry with the key. -/
def mapGet {α : Type} (k : String) (m : List (String × α)) : Option α :=
  (m.find? (fun p => p.1 == k)).map (fun p => p.2)

/-- The room name template literal admin:<adminId> of route.ts. -/
def roomName (adminId : String) : String := "admin:" ++ adminId

/-- socket.emit(event, payload): delivered to the emitting socket only. -/
def emitDirect (sid event : String) (payload : EventPayload) : Delivery :=
  { event := event, payload := payload, recipients := [sid] }

/-- socket.to(room).emit(event, payload): delivered to every socket in the
room except the sender. -/
def emitToRoom (st : RelayState) (sender room event : String)
    (payload : EventPayload) : Delivery :=
  { event := event, payload := payload,
    recipients :=
      (st.rooms.filter (fun p => p.2 == room && p.1 != sender)).map
        (fun p => p.1) }

/-- The fresh relay state: empty maps, the simulator's initial device table
(t is the ISO time the module loaded). -/
def initialRelayState (t : String) : RelayState :=
  { connectedDevices := [], adminSessions := [], rooms := [],
    simDevices := initialDevices t, activity := [], emitted := [] }

/-- The admin:authenticate handler of route.ts: verifies the token; when it
decodes with type admin, binds the socket to the admin id, replies success
and logs; otherwise replies success false with an Invalid token error and
changes no binding. -/
def handleAdminAuthenticate (now : Nat) (sid : String) (token : TokenString)
    (st : RelayState) : RelayState :=
  match verifyToken now token with
  | some decoded =>
    if decoded.type = TokenType.admin then
      { st with
        adminSessions := mapSet sid decoded.userId st.adminSessions,
        emitted := st.emitted ++
          [emitDirect sid "admin:authenticated"
            (.authResult true (some decoded.userId) none)],
        activity := st.activity ++
          [{ deviceId := "system", adminId := decoded.userId,
             action := "admin_websocket_connect" }] }
    else
      { st with emitted := st.emitted ++
          [emitDirect sid "admin:authenticated"
            (.authResult false none (some "Invalid token"))] }
  | none =>
    { st with emitted := st.emitted ++
        [emitDirect sid "admin:authenticated"
          (.authResult false none (some "Invalid token"))] }

/-- The admin:join handler of route.ts: socket.join of the admin room (a
set, hence the membership guard) and a devices:list reply carrying the
values of connectedDevices. -/
def handleAdminJoin (sid adminId : String) (st : RelayState) : RelayState :=
  let rooms1 :=
    if st.rooms.any (fun p => p.1 == sid && p.2 == roomName adminId) then
      st.rooms
    else
      st.rooms ++ [(sid, roomName adminId)]
  { st with
    rooms := rooms1,
    emitted := st.emitted ++
      [emitDirect sid "devices:list"
        (.devicesList (st.connectedDevices.map (fun p => p.2)))] }

/-- The device:register handler of route.ts: stores the registration under
the device id, flips the simulator's connected flag on, broadcasts
device:connect to the named admin's room, and confirms to the sender. -/
def handleDeviceRegister (nowIso : String) (sid deviceId deviceInfo adminId : String)
    (st : RelayState) : RelayState :=
  let reg : DeviceRegistration :=
    { deviceInfo := deviceInfo, socketId := sid, connectedAt := nowIso }
  let st1 := { st with
    connectedDevices := mapSet deviceId reg st.connectedDevices,
    simDevices := updateDeviceConnection st.simDevices deviceId true nowIso }
  { st1 with emitted := st1.emitted ++
      [ emitToRoom st1 sid (roomName adminId) "device:connect"
          (.deviceConnect deviceId deviceInfo),
        emitDirect sid "device:registered"
          (.deviceRegistered true deviceId) ] }

/-- The disconnect handler of route.ts: drops the socket's admin session (if
any, logging it), then removes every registration owned by the socket,
flips each such device's simulator flag off, and — only when the socket had
an admin session — broadcasts device:disconnect per removed device to that
admin's room; finally the socket leaves all rooms. -/
def handleDisconnect (nowIso : String) (sid : String) (st : RelayState) :
    RelayState :=
  let adminId? := mapGet sid st.adminSessions
  let st1 := { st with
    adminSessions := st.adminSessions.filter (fun p => p.1 != sid),
    activity := st.activity ++
      (match adminId? with
       | some a => [{ deviceId := "system", adminId := a,
                      action := "admin_websocket_disconnect" }]
       | none => [] : List ActivityEntry) }
  let matched : List (String × DeviceRegistration) :=
    st1.connectedDevices.filter (fun p => p.2.socketId == sid)
  let st2 := { st1 with
    connectedDevices :=
      st1.connectedDevices.filter (fun p => p.2.socketId != sid),
    simDevices := matched.foldl
      (fun ds (p : String × DeviceRegistration) =>
        updateDeviceConnection ds p.1 false nowIso) st1.simDevices,
    emitted := st1.emitted ++
      (match adminId? with
       | some a => matched.map (fun (p : String × DeviceRegistration) =>
           emitToRoom st1 sid (roomName a) "device:disconnect"
             (.deviceDisconnect p.1))
       | none => [] : List Delivery) }
  { st2 with rooms := st2.rooms.filter (fun p => p.1 != sid) }

/-- JS truthiness fallback v || alt on an optional string: undefined and
the empty string are falsy (used for commandId || result.id). -/
def jsOrString (v : Option String) (alt : String) : String :=
  match v with
  | none => alt
  | some s => if s == "" then alt else s

/-- The shared tail of every request handler in route.ts: look up the
requesting socket in adminSessions and, only when it holds an admin
session, append one activity row tagged with that admin id. -/
def logIfAdmin (sid deviceId action : String) (st : RelayState) : RelayState :=
  match mapGet sid st.adminSessions with
  | some adminId =>
    { st with activity := st.activity ++
        [{ deviceId := deviceId, adminId := adminId, action := action }] }
  | none => st

/-- The device:screenshot handler of route.ts: emits screen:update with the
simulator's screenshot URL back to the requester, then logs when the
socket holds an admin session.  The URL (built by generateScreenshot from
the device table, the clock and URL encoding) is passed as produced. -/
def handleDeviceScreenshot (sid deviceId screenshot : String)
    (st : RelayState) : RelayState :=
  logIfAdmin sid deviceId "screenshot_request"
    { st with emitted := st.emitted ++
        [emitDirect sid "screen:update" (.screenUpdate deviceId screenshot)] }

/-- The device:command handler of route.ts: runs the simulator command
lookup, emits command:result back to the requester (commandId falls back
to the generated id when the given one is JS-falsy), then logs when the
socket holds an admin session. -/
def handleDeviceCommand (uuid nowStr nowIso sid deviceId command : String)
    (commandId : Option String) (st : RelayState) : RelayState :=
  let result := executeCommand uuid nowStr nowIso deviceId command
  logIfAdmin sid deviceId "command_execute"
    { st with emitted := st.emitted ++
        [emitDirect sid "command:result"
          (.commandResult deviceId (jsOrString commandId result.id)
            result.output result.exitCode result.timestamp)] }

/-- The device:files handler of route.ts: emits file:list with the
simulator's listing for the path back to the requester, then logs when the
socket holds an admin session. -/
def handleDeviceFiles (sid deviceId path : String) (st : RelayState) :
    RelayState :=
  logIfAdmin sid deviceId "file_browse"
    { st with emitted := st.emitted ++
        [emitDirect sid "file:list"
          (.fileList deviceId path (getFileSystem deviceId path))] }

/-- The device:location handler of route.ts: emits location:update back to
the requester, then logs when the socket holds an admin session.  The
location value (jittered floating-point coordinates from
getCurrentLocation) is passed as produced. -/
def handleDeviceLocation (sid deviceId location : String) (st : RelayState) :
    RelayState :=
  logIfAdmin sid deviceId "location_request"
    { st with emitted := st.emitted ++
        [emitDirect sid "location:update" (.locationUpdate deviceId location)] }

/-- The device:camera handler of route.ts: emits camera:result back to the
requester, then logs when the socket holds an admin session.  The image
URL (built by captureCamera from the clock) is passed as produced. -/
def handleDeviceCamera (sid deviceId camera imageUrl : String)
    (st : RelayState) : RelayState :=
  logIfAdmin sid deviceId "camera_capture"
    { st with emitted := st.emitted ++
        [emitDirect sid "camera:result"
          (.cameraResult deviceId camera imageUrl)] }

/-- The device:audio handler of route.ts: emits audio:result with the
recordAudio record back to the requester, then logs when the socket holds
an admin session.  The audio URL text (built from the clock) is passed as
produced. -/
def handleDeviceAudio (sid deviceId : String) (duration : Nat)
    (audioUrl : String) (st : RelayState) : RelayState :=
  logIfAdmin sid deviceId "audio_record"
    { st with emitted := st.emitted ++
        [emitDirect sid "audio:result"
          (.audioResult deviceId (recordAudio audioUrl duration))] }

/-- The device:apps handler of route.ts: emits app:list with the static
catalog back to the requester, then logs when the socket holds an admin
session. -/
def handleDeviceApps (sid deviceId : String) (st : RelayState) : RelayState :=
  logIfAdmin sid deviceId "app_list"
    { st with emitted := st.emitted ++
        [emitDirect sid "app:list"
          (.appList deviceId (getInstalledApps deviceId))] }

/-- The device:notify handler of route.ts: emits notification:sent with
success true back to the requester (generateNotification only logs to the
console), then logs when the socket holds an admin session. -/
def handleDeviceNotify (sid deviceId message : String) (st : RelayState) :
    RelayState :=
  logIfAdmin sid deviceId "notification_send"
    { st with emitted := st.emitted ++
        [emitDirect sid "notification:sent"
          (.notificationSent deviceId message true)] }

/-- The keys of an association map are pairwise distinct (each socket id
carries at most one binding). -/
def keysNodup {α : Type} (m : List (String × α)) : Prop :=
  (m.map (fun p => p.1)).Nodup

end Relay

open DeviceSimulator Auth Database Relay

/-! Helper lemmas shared by several developments below. -/

theorem list_map_idem {α : Type} (f : α → α) (hf : ∀ a, f (f a) = f a)
    (l : List α) : (l.map f).map f = l.map f := by
  induction l with
  | nil => rfl
  | cons a l ih => simp [hf a, ih]

theorem find?_pair_eq_none {β : Type} (l : List (String × β)) (k : String)
    (h : ∀ e ∈ l, e.1 ≠ k) : l.find? (fun e => e.1 == k) = none := by
  rw [List.find?_eq_none]
  intro x hx
  simp [h x hx]

/-! Claim C1. -/

/-- C1 counterexample: the claim asserts that for a device id unknown to the
device table, listFiles returns the empty sequence for every path and
execute returns exit code 127 for every command; at device id ghost,
path / and command pwd the code returns the seven common files and exit
code 0 (getFileSystem and executeCommand never consult the device id). -/
theorem unknownDevice_claim_counterexample :
    getDeviceById (initialDevices "t0") "ghost" = none ∧
    getFileSystem "ghost" "/" ≠ [] ∧
    (executeCommand "u" "n" "i" "ghost" "pwd").exitCode ≠ some 127 := by
  refine ⟨by decide, by decide, by decide⟩

/-- C1 (amended): for a device id d outside the device table, describe(d)
is null; and the path and command lookups are device-independent: listFiles
returns the empty sequence for every path outside the fixed path table,
and execute returns exit code 127 with the not-found message for every
command whose lowercasing is neither a key of the fixed command table nor
an Object.prototype property name (for the latter the object lookup hits
the inherited prototype value and the result fields are undefined). -/
theorem unknownDevice_lookup_amended (uuid nowStr nowIso t d p c : String)
    (hd : d ∉ (["device-001", "device-002", "device-003"] : List String))
    (hp : p ∉ (["/", "", "/DCIM", "/Download"] : List String))
    (hc : jsToLowerCase c ∉
      (["ls", "pwd", "whoami", "date", "ps", "df", "getprop"] : List String))
    (hproto : jsToLowerCase c ∉ objectPrototypeProps) :
    getDeviceById (initialDevices t) d = none ∧
    getFileSystem d p = [] ∧
    (executeCommand uuid nowStr nowIso d c).exitCode = some 127 ∧
    (executeCommand uuid nowStr nowIso d c).output =
      some (notFoundOutput c) := by
  simp only [List.mem_cons, List.not_mem_nil, or_false, not_or] at hd hp hc
  obtain ⟨hd1, hd2, hd3⟩ := hd
  obtain ⟨hp1, hp2, hp3, hp4⟩ := hp
  obtain ⟨hc1, hc2, hc3, hc4, hc5, hc6, hc7⟩ := hc
  have hfind : (commandOutputs nowStr).find?
      (fun e => e.1 == jsToLowerCase c) = none := by
    apply find?_pair_eq_none
    intro e he
    simp only [commandOutputs, List.mem_cons, List.not_mem_nil, or_false] at he
    rcases he with h | h | h | h | h | h | h <;>
      (subst h; simp; intro hq; first
        | exact hc1 hq.symm | exact hc2 hq.symm | exact hc3 hq.symm
        | exact hc4 hq.symm | exact hc5 hq.symm | exact hc6 hq.symm
        | exact hc7 hq.symm)
  refine ⟨?_, ?_, ?_, ?_⟩
  · rw [getDeviceById, List.find?_eq_none]
    intro x hx
    simp only [initialDevices, List.mem_cons, List.not_mem_nil, or_false] at hx
    rcases hx with h | h | h <;>
      (subst h; simp; intro hq; first
        | exact hd1 hq.symm | exact hd2 hq.symm | exact hd3 hq.symm)
  · have e1 : (p == "/") = false := beq_eq_false_iff_ne.mpr hp1
    have e2 : (p == "") = false := beq_eq_false_iff_ne.mpr hp2
    have e3 : (p == "/DCIM") = false := beq_eq_false_iff_ne.mpr hp3
    have e4 : (p == "/Download") = false := beq_eq_false_iff_ne.mpr hp4
    simp [getFileSystem, e1, e2, e3, e4]
  · simp [executeCommand, hfind, hproto]
  · simp [executeCommand, hfind, hproto]

/-- C1 amended witness at device id ghost, path /x, command frobnicate. -/
theorem unknownDevice_lookup_amended_witness :
    ("ghost" ∉ (["device-001", "device-002", "device-003"] : List String)) ∧
    ("/x" ∉ (["/", "", "/DCIM", "/Download"] : List String)) ∧
    (jsToLowerCase "frobnicate" ∉
      (["ls", "pwd", "whoami", "date", "ps", "df", "getprop"] : List String)) ∧
    (jsToLowerCase "frobnicate" ∉ objectPrototypeProps) ∧
    (getDeviceById (initialDevices "t0") "ghost" = none ∧
     getFileSystem "ghost" "/x" = [] ∧
     (executeCommand "u" "n" "i" "ghost" "frobnicate").exitCode = some 127 ∧
     (executeCommand "u" "n" "i" "ghost" "frobnicate").output =
       some (notFoundOutput "frobnicate")) :=
  ⟨by decide, by decide, by decide, by decide,
    unknownDevice_lookup_amended "u" "n" "i" "t0" "ghost" "/x" "frobnicate"
      (by decide) (by decide) (by decide) (by decide)⟩

/-! Claim C8. -/

/-- C8: at the failing input — any device id, command string constructor —
the lowercased key collides with Object.prototype.constructor, a truthy
inherited value, so the not-found default with exit code 127 is skipped
and the result's output and exitCode are undefined instead of the claimed
canned 127/not-found pair (likewise for the command string __proto__);
while the claim does hold at every key of the table itself, shown here for
the mixed-case PWD on two distinct device ids. -/
theorem executeCommand_prototype_behavior :
    (jsToLowerCase "constructor" ∉
      (["ls", "pwd", "whoami", "date", "ps", "df", "getprop"] : List String)) ∧
    (executeCommand "u" "n" "i" "d" "constructor").output = none ∧
    (executeCommand "u" "n" "i" "d" "constructor").exitCode = none ∧
    (executeCommand "u" "n" "i" "d" "__proto__").output = none ∧
    (executeCommand "u" "n" "i" "d" "__proto__").exitCode = none ∧
    (executeCommand "u" "n" "i" "deviceA" "PWD").output =
      some "/storage/emulated/0" ∧
    (executeCommand "u" "n" "i" "deviceA" "PWD").exitCode = some 0 ∧
    (executeCommand "u" "n" "i" "deviceB" "PWD" =
      executeCommand "u" "n" "i" "deviceA" "PWD") := by
  refine ⟨by decide, by decide, by decide, by decide, by decide, by decide,
    by decide, by decide⟩

/-! Claim C3. -/

/-- C3: verifying a token immediately after issuing it, with no clock
advance, yields a non-null payload carrying the same subject id and role,
for either role and any optional device id. -/
theorem verifyToken_generateToken_roundtrip (now : Nat) (s : String)
    (dev : Option String) (r : TokenType) :
    ∃ p : JWTPayload,
      verifyToken now (generateToken now s dev r) = some p ∧
      p.userId = s ∧ p.type = r := by
  refine ⟨{ userId := s, deviceId := dev, type := r, iat := some now,
            exp := some (now + JWT_EXPIRES_IN_SECONDS) }, ?_, rfl, rfl⟩
  have hexp : ¬ (now + JWT_EXPIRES_IN_SECONDS ≤ now) := by
    simp [JWT_EXPIRES_IN_SECONDS]
  simp [verifyToken, generateToken, jwtSign, jwtVerify, hexp]

/-! Claim C4. -/

/-- C4: a token issued with the 24h expiry and verified 25 hours later is
rejected (null); and verifyToken returns null on every failure — malformed
input always yields null, and any accepted token must be intact, signed
with JWT_SECRET, and unexpired. -/
theorem verifyToken_fails_closed :
    (∀ (t : Nat) (s : String) (dev : Option String) (r : TokenType),
       verifyToken (t + 25 * 3600) (generateToken t s dev r) = none) ∧
    (∀ (raw : String) (now : Nat),
       verifyToken now (TokenString.malformed raw) = none) ∧
    (∀ (tk : SignedJWT) (now : Nat) (p : JWTPayload),
       verifyToken now (TokenString.signed tk) = some p →
       tk.intact = true ∧ tk.secret = JWT_SECRET ∧ now < tk.exp) := by
  refine ⟨?_, ?_, ?_⟩
  · intro t s dev r
    have hexp : t + JWT_EXPIRES_IN_SECONDS ≤ t + 25 * 3600 := by
      simp [JWT_EXPIRES_IN_SECONDS]
    simp [verifyToken, generateToken, jwtSign, jwtVerify, hexp]
  · intro raw now
    rfl
  · intro tk now p h
    simp only [verifyToken, jwtVerify] at h
    split at h
    · exact absurd h (by simp)
    · split at h
      · exact absurd h (by simp)
      · split at h
        · exact absurd h (by simp)
        · refine ⟨by simp_all, by simp_all, by omega⟩

/-- C4 witness: a concrete token verified 25 hours after issuance. -/
theorem verifyToken_fails_closed_witness :
    verifyToken (0 + 25 * 3600) (generateToken 0 "admin-001" none .admin) =
      none :=
  verifyToken_fails_closed.1 0 "admin-001" none .admin

/-! Claim C9. -/

/-- C9: the retention sweep is idempotent — running cleanupExpiredData
twice at the same clock time with no intervening writes produces exactly
the state of running it once: no further deactivations or deletions. -/
theorem cleanupExpiredData_idempotent (now : Nat) (db : DBState) :
    cleanupExpiredData now (cleanupExpiredData now db) =
      cleanupExpiredData now db := by
  simp only [cleanupExpiredData, DBState.mk.injEq]
  refine ⟨?_, ?_, ?_⟩
  · apply list_map_idem
    intro s
    by_cases h : s.expiresAt ≤ now ∧ s.active = true
    · rw [if_pos h, if_neg (by simp)]
    · rw [if_neg h, if_neg h]
  · simp [List.filter_filter]
  · simp [List.filter_filter]

/-! Helper lemmas for the relay development. -/

theorem roomName_inj {a b : String} (h : roomName a = roomName b) : a = b := by
  have hd := congrArg String.data h
  simp only [roomName, String.data_append] at hd
  exact String.ext (List.append_cancel_left hd)

theorem mapGet_mapSet_self {α : Type} (k : String) (v : α)
    (m : List (String × α)) : mapGet k (mapSet k v m) = some v := by
  induction m with
  | nil => simp [mapSet, mapGet, List.find?]
  | cons pr rest ih =>
    by_cases h : pr.1 == k
    · simp [mapSet, h, mapGet, List.find?]
    · simp only [mapSet, h, Bool.false_eq_true, if_false]
      simpa [mapGet, List.find?, h] using ih

theorem keys_mapSet_mem {α : Type} (k : String) (v : α)
    (m : List (String × α)) :
    ∀ x ∈ (mapSet k v m).map (fun p => p.1), x = k ∨ x ∈ m.map (fun p => p.1) := by
  induction m with
  | nil => intro x hx; simp [mapSet] at hx; exact Or.inl hx
  | cons pr rest ih =>
    intro x hx
    by_cases h : pr.1 == k
    · simp only [mapSet, h, if_true, List.map_cons, List.mem_cons] at hx
      rcases hx with hx | hx
      · exact Or.inl hx
      · exact Or.inr (by simp only [List.map_cons, List.mem_cons]; exact Or.inr hx)
    · simp only [mapSet, h, Bool.false_eq_true, if_false, List.map_cons,
        List.mem_cons] at hx
      rcases hx with hx | hx
      · exact Or.inr (by simp only [List.map_cons, List.mem_cons]; exact Or.inl hx)
      · rcases ih x hx with h1 | h1
        · exact Or.inl h1
        · exact Or.inr (by simp only [List.map_cons, List.mem_cons]; exact Or.inr h1)

theorem keysNodup_mapSet {α : Type} (k : String) (v : α)
    (m : List (String × α)) (h : keysNodup m) : keysNodup (mapSet k v m) := by
  induction m with
  | nil => simp [keysNodup, mapSet]
  | cons pr rest ih =>
    simp only [keysNodup, List.map_cons, List.nodup_cons] at h
    by_cases hh : pr.1 == k
    · have hk : pr.1 = k := by simpa using hh
      simp only [keysNodup, mapSet, hh, if_true, List.map_cons, List.nodup_cons]
      exact ⟨hk ▸ h.1, h.2⟩
    · have hk : pr.1 ≠ k := by simpa using hh
      simp only [keysNodup, mapSet, hh, Bool.false_eq_true, if_false,
        List.map_cons, List.nodup_cons]
      refine ⟨?_, ih h.2⟩
      intro hmem
      rcases keys_mapSet_mem k v rest pr.1 hmem with h1 | h1
      · exact hk h1
      · exact h.1 h1

theorem keysNodup_filter {α : Type} (p : String × α → Bool)
    (m : List (String × α)) (h : keysNodup m) : keysNodup (m.filter p) := by
  exact List.Nodup.sublist (List.Sublist.map _ (List.filter_sublist m)) h

theorem connFlag_update_self (ds : List MockDeviceInfo) (d0 : String)
    (b : Bool) (nowIso : String) :
    connFlag (updateDeviceConnection ds d0 b nowIso) d0 =
      (connFlag ds d0).map (fun _ => b) := by
  induction ds with
  | nil => rfl
  | cons dev rest ih =>
    by_cases h : dev.id == d0
    · simp [updateDeviceConnection, h, connFlag, getDeviceById, List.find?]
    · simp only [updateDeviceConnection, h, Bool.false_eq_true, if_false]
      simpa [connFlag, getDeviceById, List.find?, h] using ih

theorem connFlag_update_other (ds : List MockDeviceInfo) (d0 d1 : String)
    (b : Bool) (nowIso : String) (h : d1 ≠ d0) :
    connFlag (updateDeviceConnection ds d1 b nowIso) d0 = connFlag ds d0 := by
  induction ds with
  | nil => rfl
  | cons dev rest ih =>
    by_cases hh : dev.id == d1
    · have h1 : dev.id = d1 := by simpa using hh
      have h0 : (dev.id == d0) = false := by
        simp only [beq_eq_false_iff_ne, ne_eq]
        exact fun q => h (h1 ▸ q)
      simp [updateDeviceConnection, hh, connFlag, getDeviceById, List.find?, h0]
    · simp only [updateDeviceConnection, hh, Bool.false_eq_true, if_false]
      by_cases h0 : dev.id == d0
      · simp [connFlag, getDeviceById, List.find?, h0]
      · simpa [connFlag, getDeviceById, List.find?, h0] using ih

theorem connFlag_foldl_preserve {β : Type} (nowIso : String)
    (l : List (String × β)) (ds : List MockDeviceInfo) (d0 : String)
    (h : ∀ pr ∈ l, pr.1 ≠ d0) :
    connFlag (l.foldl
        (fun acc pr => updateDeviceConnection acc pr.1 false nowIso) ds) d0 =
      connFlag ds d0 := by
  induction l generalizing ds with
  | nil => rfl
  | cons pr rest ih =>
    rw [List.foldl_cons]
    rw [ih _ (fun q hq => h q (List.mem_cons_of_mem _ hq))]
    exact connFlag_update_other ds d0 pr.1 false nowIso (h pr (List.mem_cons_self _ _))

theorem connFlag_foldl_false {β : Type} (nowIso : String)
    (l : List (String × β)) (ds : List MockDeviceInfo) (d0 : String)
    (h : d0 ∈ l.map (fun pr => pr.1)) :
    connFlag (l.foldl
        (fun acc pr => updateDeviceConnection acc pr.1 false nowIso) ds) d0 =
      (connFlag ds d0).map (fun _ => false) := by
  induction l generalizing ds with
  | nil => simp at h
  | cons pr rest ih =>
    rw [List.foldl_cons]
    by_cases hd : pr.1 = d0
    · subst hd
      by_cases hrest : pr.1 ∈ rest.map (fun q => q.1)
      · rw [ih _ hrest, connFlag_update_self]
        cases connFlag ds pr.1 <;> rfl
      · have hpres : ∀ q ∈ rest, q.1 ≠ pr.1 := by
          intro q hq hqe
          exact hrest (List.mem_map.mpr ⟨q, hq, hqe⟩)
        rw [connFlag_foldl_preserve nowIso rest _ _ hpres, connFlag_update_self]
    · have hrest : d0 ∈ rest.map (fun q => q.1) := by
        simp only [List.map_cons, List.mem_cons] at h
        rcases h with h | h
        · exact absurd h.symm hd
        · exact h
      rw [ih _ hrest, connFlag_update_other _ _ _ _ _ hd]

/-! Claim C2. -/

/-- C2: a device:connect broadcast emitted by registering a device for
admin A reaches only sockets that are members of A's room (and never the
registering socket itself); in particular a connection whose only room
memberships are B's room, for B distinct from A, never receives it. -/
theorem deviceConnect_room_scoped (nowIso sid d info A B c : String)
    (st : RelayState) (hAB : A ≠ B)
    (hc : ∀ r, (c, r) ∈ st.rooms → r = roomName B) :
    ∀ e ∈ (handleDeviceRegister nowIso sid d info A st).emitted,
      e ∈ st.emitted ∨ e.event ≠ "device:connect" ∨
        (c ∉ e.recipients ∧
         ∀ x ∈ e.recipients, x ≠ sid ∧ (x, roomName A) ∈ st.rooms) := by
  intro e he
  simp only [handleDeviceRegister, List.mem_append, List.mem_cons,
    List.not_mem_nil, or_false] at he
  rcases he with he | he | he
  · exact Or.inl he
  · right; right
    subst he
    constructor
    · intro hcmem
      simp only [emitToRoom, List.mem_map, List.mem_filter,
        Bool.and_eq_true, bne_iff_ne, ne_eq, beq_iff_eq] at hcmem
      obtain ⟨⟨p1, p2⟩, ⟨hmem, hroom, _⟩, hfst⟩ := hcmem
      subst hfst
      subst hroom
      exact hAB (roomName_inj (hc _ hmem))
    · intro x hx
      simp only [emitToRoom, List.mem_map, List.mem_filter,
        Bool.and_eq_true, bne_iff_ne, ne_eq, beq_iff_eq] at hx
      obtain ⟨⟨p1, p2⟩, ⟨hmem, hroom, hnsid⟩, hfst⟩ := hx
      subst hfst
      subst hroom
      exact ⟨hnsid, hmem⟩
  · subst he
    refine Or.inr (Or.inl ?_)
    show (emitDirect sid "device:registered"
      (EventPayload.deviceRegistered true d)).event ≠ "device:connect"
    simp only [emitDirect]
    decide

/-- C2 witness: a socket joined only to admin B's room does not receive the
device:connect broadcast for a device registered to admin A. -/
theorem deviceConnect_room_scoped_witness :
    (("A" : String) ≠ "B") ∧
    (∀ r, ("connB", r) ∈
        (handleAdminJoin "connB" "B" (initialRelayState "t")).rooms →
      r = roomName "B") ∧
    (∀ e ∈ (handleDeviceRegister "now" "devSock" "device-001" "info" "A"
        (handleAdminJoin "connB" "B" (initialRelayState "t"))).emitted,
      e ∈ (handleAdminJoin "connB" "B" (initialRelayState "t")).emitted ∨
      e.event ≠ "device:connect" ∨
      (("connB" : String) ∉ e.recipients ∧
       ∀ x ∈ e.recipients, x ≠ "devSock" ∧
         (x, roomName "A") ∈
           (handleAdminJoin "connB" "B" (initialRelayState "t")).rooms)) := by
  have hrooms : (handleAdminJoin "connB" "B" (initialRelayState "t")).rooms =
      [("connB", roomName "B")] := by decide
  have hc : ∀ r, ("connB", r) ∈
      (handleAdminJoin "connB" "B" (initialRelayState "t")).rooms →
      r = roomName "B" := by
    intro r hr
    rw [hrooms] at hr
    simp only [List.mem_cons, List.not_mem_nil, or_false, Prod.mk.injEq] at hr
    exact hr.2
  exact ⟨by decide, hc,
    deviceConnect_room_scoped "now" "devSock" "device-001" "info" "A" "B"
      "connB" _ (by decide) hc⟩

/-! Claim C5. -/

/-- C5 counterexample: a socket that registered a device without holding an
admin session disconnects; the registration is removed and the simulator
flag cleared, but no device:disconnect event is broadcast at all —
contradicting the claim that the broadcast happens regardless of whether
the disconnecting connection held an admin session. -/
theorem deviceDisconnect_broadcast_counterexample :
    (mapGet "devSock"
      (handleDeviceRegister "t1" "devSock" "device-001" "info" "admin-001"
        (initialRelayState "t0")).adminSessions = none) ∧
    (mapGet "device-001"
      (handleDeviceRegister "t1" "devSock" "device-001" "info" "admin-001"
        (initialRelayState "t0")).connectedDevices =
      some { deviceInfo := "info", socketId := "devSock",
             connectedAt := "t1" }) ∧
    ((handleDisconnect "t2" "devSock"
      (handleDeviceRegister "t1" "devSock" "device-001" "info" "admin-001"
        (initialRelayState "t0"))).connectedDevices = []) ∧
    (connFlag (handleDisconnect "t2" "devSock"
      (handleDeviceRegister "t1" "devSock" "device-001" "info" "admin-001"
        (initialRelayState "t0"))).simDevices "device-001" = some false) ∧
    (∀ e ∈ (handleDisconnect "t2" "devSock"
      (handleDeviceRegister "t1" "devSock" "device-001" "info" "admin-001"
        (initialRelayState "t0"))).emitted,
      e.event ≠ "device:disconnect") := by
  refine ⟨by decide, by decide, by decide, by decide, by decide⟩

/-- C5 (amended): on disconnect the relay removes exactly the
registrations owned by the socket and sets each such device's simulator
connected flag to false; a device:disconnect broadcast is emitted only
when the disconnecting socket itself held an admin session, and then one
per removed registration, to that admin session's room (the owning admin
recorded at registration time is not consulted); with no admin session, no
event is emitted. -/
theorem handleDisconnect_behavior (nowIso sid : String) (st : RelayState) :
    (∀ pr ∈ (handleDisconnect nowIso sid st).connectedDevices,
       pr.2.socketId ≠ sid) ∧
    (∀ pr ∈ st.connectedDevices, pr.2.socketId ≠ sid →
       pr ∈ (handleDisconnect nowIso sid st).connectedDevices) ∧
    (∀ d0, d0 ∈ (st.connectedDevices.filter
        (fun pr => pr.2.socketId == sid)).map (fun pr => pr.1) →
       connFlag (handleDisconnect nowIso sid st).simDevices d0 =
         (connFlag st.simDevices d0).map (fun _ => false)) ∧
    (mapGet sid st.adminSessions = none →
       (handleDisconnect nowIso sid st).emitted = st.emitted) ∧
    (∀ a, mapGet sid st.adminSessions = some a →
       (handleDisconnect nowIso sid st).emitted = st.emitted ++
         (st.connectedDevices.filter (fun pr => pr.2.socketId == sid)).map
           (fun pr => emitToRoom st sid (roomName a) "device:disconnect"
              (.deviceDisconnect pr.1))) := by
  have hcd : (handleDisconnect nowIso sid st).connectedDevices =
      st.connectedDevices.filter (fun pr => pr.2.socketId != sid) := rfl
  have hsim : (handleDisconnect nowIso sid st).simDevices =
      (st.connectedDevices.filter (fun pr => pr.2.socketId == sid)).foldl
        (fun acc pr => updateDeviceConnection acc pr.1 false nowIso)
        st.simDevices := rfl
  have hem : (handleDisconnect nowIso sid st).emitted =
      st.emitted ++
        (match mapGet sid st.adminSessions with
         | some a =>
           (st.connectedDevices.filter
             (fun pr => pr.2.socketId == sid)).map
             (fun pr => emitToRoom st sid (roomName a) "device:disconnect"
                (.deviceDisconnect pr.1))
         | none => []) := rfl
  refine ⟨?_, ?_, ?_, ?_, ?_⟩
  · intro pr hpr
    rw [hcd, List.mem_filter] at hpr
    simpa using hpr.2
  · intro pr hpr hne
    rw [hcd, List.mem_filter]
    exact ⟨hpr, by simpa using hne⟩
  · intro d0 hd0
    rw [hsim]
    exact connFlag_foldl_false nowIso _ st.simDevices d0 hd0
  · intro h
    rw [hem, h, List.append_nil]
  · intro a h
    rw [hem, h]

/-- C5 amended witness: an admin-authenticated socket that also registered
a device disconnects; the device:disconnect broadcast goes to its own
admin session's room. -/
theorem handleDisconnect_behavior_witness :
    (mapGet "s1"
      (handleDeviceRegister "t1" "s1" "d1" "info" "adminA"
        (handleAdminAuthenticate 0 "s1" (generateToken 0 "adminA" none .admin)
          (initialRelayState "t0"))).adminSessions = some "adminA") ∧
    ((handleDisconnect "t2" "s1"
      (handleDeviceRegister "t1" "s1" "d1" "info" "adminA"
        (handleAdminAuthenticate 0 "s1" (generateToken 0 "adminA" none .admin)
          (initialRelayState "t0")))).emitted =
      (handleDeviceRegister "t1" "s1" "d1" "info" "adminA"
        (handleAdminAuthenticate 0 "s1" (generateToken 0 "adminA" none .admin)
          (initialRelayState "t0"))).emitted ++
        ((handleDeviceRegister "t1" "s1" "d1" "info" "adminA"
          (handleAdminAuthenticate 0 "s1" (generateToken 0 "adminA" none .admin)
            (initialRelayState "t0"))).connectedDevices.filter
              (fun pr => pr.2.socketId == "s1")).map
          (fun pr => emitToRoom
            (handleDeviceRegister "t1" "s1" "d1" "info" "adminA"
              (handleAdminAuthenticate 0 "s1"
                (generateToken 0 "adminA" none .admin)
                (initialRelayState "t0")))
            "s1" (roomName "adminA") "device:disconnect"
            (.deviceDisconnect pr.1))) := by
  refine ⟨by decide, ?_⟩
  exact (handleDisconnect_behavior "t2" "s1" _).2.2.2.2 "adminA" (by decide)

/-! Claim C6. -/

theorem logIfAdmin_adminSessions (sid deviceId action : String)
    (st : RelayState) :
    (logIfAdmin sid deviceId action st).adminSessions = st.adminSessions := by
  unfold logIfAdmin
  cases mapGet sid st.adminSessions <;> rfl

/-- C6 counterexample: one socket authenticates as an admin and then
registers two devices; afterwards it simultaneously holds an admin binding
in adminSessions and owns two DeviceRegistrations — the relay enforces
neither the claimed admin/device mutual exclusion nor at most one device
id per connection. -/
theorem connection_dual_binding_counterexample :
    (mapGet "s1"
      (handleDeviceRegister "t2" "s1" "d2" "info2" "adminA"
        (handleDeviceRegister "t1" "s1" "d1" "info1" "adminA"
          (handleAdminAuthenticate 0 "s1" (generateToken 0 "adminA" none .admin)
            (initialRelayState "t0")))).adminSessions = some "adminA") ∧
    (mapGet "d1"
      (handleDeviceRegister "t2" "s1" "d2" "info2" "adminA"
        (handleDeviceRegister "t1" "s1" "d1" "info1" "adminA"
          (handleAdminAuthenticate 0 "s1" (generateToken 0 "adminA" none .admin)
            (initialRelayState "t0")))).connectedDevices =
      some { deviceInfo := "info1", socketId := "s1", connectedAt := "t1" }) ∧
    (mapGet "d2"
      (handleDeviceRegister "t2" "s1" "d2" "info2" "adminA"
        (handleDeviceRegister "t1" "s1" "d1" "info1" "adminA"
          (handleAdminAuthenticate 0 "s1" (generateToken 0 "adminA" none .admin)
            (initialRelayState "t0")))).connectedDevices =
      some { deviceInfo := "info2", socketId := "s1", connectedAt := "t2" }) := by
  refine ⟨by decide, by decide, by decide⟩

/-- C6 (amended): every relay operation — authenticate, join, register,
each of the eight request handlers, and disconnect — preserves the
invariant that each live connection is bound to at most one admin id (the
adminSessions table never holds two bindings for one socket id, starting
from the empty table); the relay does not, however, bound the number of
device registrations per connection, nor enforce exclusivity between an
admin binding and device registrations on the same connection. -/
theorem adminSessions_unique_binding :
    (∀ t, keysNodup (initialRelayState t).adminSessions) ∧
    (∀ now sid tok st, keysNodup st.adminSessions →
       keysNodup (handleAdminAuthenticate now sid tok st).adminSessions) ∧
    (∀ sid adminId st, keysNodup st.adminSessions →
       keysNodup (handleAdminJoin sid adminId st).adminSessions) ∧
    (∀ nowIso sid d info adminId st, keysNodup st.adminSessions →
       keysNodup
         (handleDeviceRegister nowIso sid d info adminId st).adminSessions) ∧
    (∀ sid d shot st, keysNodup st.adminSessions →
       keysNodup (handleDeviceScreenshot sid d shot st).adminSessions) ∧
    (∀ uuid nowStr nowIso sid d cmd cid st, keysNodup st.adminSessions →
       keysNodup
         (handleDeviceCommand uuid nowStr nowIso sid d cmd cid
           st).adminSessions) ∧
    (∀ sid d path st, keysNodup st.adminSessions →
       keysNodup (handleDeviceFiles sid d path st).adminSessions) ∧
    (∀ sid d loc st, keysNodup st.adminSessions →
       keysNodup (handleDeviceLocation sid d loc st).adminSessions) ∧
    (∀ sid d cam url st, keysNodup st.adminSessions →
       keysNodup (handleDeviceCamera sid d cam url st).adminSessions) ∧
    (∀ sid d dur url st, keysNodup st.adminSessions →
       keysNodup (handleDeviceAudio sid d dur url st).adminSessions) ∧
    (∀ sid d st, keysNodup st.adminSessions →
       keysNodup (handleDeviceApps sid d st).adminSessions) ∧
    (∀ sid d msg st, keysNodup st.adminSessions →
       keysNodup (handleDeviceNotify sid d msg st).adminSessions) ∧
    (∀ nowIso sid st, keysNodup st.adminSessions →
       keysNodup (handleDisconnect nowIso sid st).adminSessions) := by
  refine ⟨?_, ?_, ?_, ?_, ?_, ?_, ?_, ?_, ?_, ?_, ?_, ?_, ?_⟩
  · intro t
    simp [keysNodup, initialRelayState]
  · intro now sid tok st h
    unfold handleAdminAuthenticate
    cases verifyToken now tok with
    | none => exact h
    | some decoded =>
      dsimp only
      by_cases hty : decoded.type = TokenType.admin
      · rw [if_pos hty]
        exact keysNodup_mapSet sid decoded.userId st.adminSessions h
      · rw [if_neg hty]
        exact h
  · intro sid adminId st h
    exact h
  · intro nowIso sid d info adminId st h
    exact h
  · intro sid d shot st h
    unfold handleDeviceScreenshot
    rw [logIfAdmin_adminSessions]
    exact h
  · intro uuid nowStr nowIso sid d cmd cid st h
    unfold handleDeviceCommand
    rw [logIfAdmin_adminSessions]
    exact h
  · intro sid d path st h
    unfold handleDeviceFiles
    rw [logIfAdmin_adminSessions]
    exact h
  · intro sid d loc st h
    unfold handleDeviceLocation
    rw [logIfAdmin_adminSessions]
    exact h
  · intro sid d cam url st h
    unfold handleDeviceCamera
    rw [logIfAdmin_adminSessions]
    exact h
  · intro sid d dur url st h
    unfold handleDeviceAudio
    rw [logIfAdmin_adminSessions]
    exact h
  · intro sid d st h
    unfold handleDeviceApps
    rw [logIfAdmin_adminSessions]
    exact h
  · intro sid d msg st h
    unfold handleDeviceNotify
    rw [logIfAdmin_adminSessions]
    exact h
  · intro nowIso sid st h
    exact keysNodup_filter _ st.adminSessions h

/-- C6 amended witness: the authenticate handler preserves the single
binding invariant at a concrete state. -/
theorem adminSessions_unique_binding_witness :
    keysNodup (initialRelayState "t0").adminSessions ∧
    keysNodup (handleAdminAuthenticate 0 "s1"
      (generateToken 0 "adminA" none .admin)
      (initialRelayState "t0")).adminSessions := by
  have h0 : keysNodup (initialRelayState "t0").adminSessions := by
    simp [keysNodup, initialRelayState]
  exact ⟨h0, adminSessions_unique_binding.2.1 0 "s1"
    (generateToken 0 "adminA" none .admin) (initialRelayState "t0") h0⟩

/-! Claim C7. -/

/-- C7 counterexample: device d1 is registered by socket s1; with no
disconnect in between, a second device:register for d1 from socket s2 is
accepted — it overwrites the registration and is confirmed with
device:registered success — contradicting the claim that a second
registration is never accepted while the first connection is still open. -/
theorem reregistration_accepted_counterexample :
    (mapGet "d1"
      (handleDeviceRegister "t1" "s1" "d1" "infoA" "adminA"
        (initialRelayState "t0")).connectedDevices =
      some { deviceInfo := "infoA", socketId := "s1", connectedAt := "t1" }) ∧
    (mapGet "d1"
      (handleDeviceRegister "t2" "s2" "d1" "infoB" "adminA"
        (handleDeviceRegister "t1" "s1" "d1" "infoA" "adminA"
          (initialRelayState "t0"))).connectedDevices =
      some { deviceInfo := "infoB", socketId := "s2", connectedAt := "t2" }) ∧
    (emitDirect "s2" "device:registered" (.deviceRegistered true "d1") ∈
      (handleDeviceRegister "t2" "s2" "d1" "infoB" "adminA"
        (handleDeviceRegister "t1" "s1" "d1" "infoA" "adminA"
          (initialRelayState "t0"))).emitted) := by
  refine ⟨by decide, by decide, by decide⟩

/-- C7 (amended): the relay accepts every device:register unconditionally:
in any state, registering device id d binds d to the requesting socket
(replacing any existing registration, last writer wins) and replies
device:registered with success true. -/
theorem deviceRegister_last_writer_wins
    (nowIso sid deviceId deviceInfo adminId : String) (st : RelayState) :
    mapGet deviceId
      (handleDeviceRegister nowIso sid deviceId deviceInfo adminId
        st).connectedDevices =
      some { deviceInfo := deviceInfo, socketId := sid,
             connectedAt := nowIso } ∧
    emitDirect sid "device:registered" (.deviceRegistered true deviceId) ∈
      (handleDeviceRegister nowIso sid deviceId deviceInfo adminId
        st).emitted := by
  constructor
  · exact mapGet_mapSet_self deviceId _ st.connectedDevices
  · simp [handleDeviceRegister]

/-! Claim C10. -/

/-- C10: a validly decoded token whose type is device does not authenticate
a connection as admin: the handler replies admin:authenticated success
false with an Invalid token error and leaves the whole relay state — in
particular adminSessions — otherwise unchanged. -/
theorem adminAuthenticate_rejects_device_token (now : Nat) (sid : String)
    (tok : TokenString) (st : RelayState) (p : JWTPayload)
    (hv : verifyToken now tok = some p) (ht : p.type = TokenType.device) :
    handleAdminAuthenticate now sid tok st =
      { st with emitted := st.emitted ++
          [emitDirect sid "admin:authenticated"
            (.authResult false none (some "Invalid token"))] } := by
  unfold handleAdminAuthenticate
  rw [hv]
  dsimp only
  rw [if_neg (by rw [ht]; exact fun q => TokenType.noConfusion q)]

/-- C10 witness: a concrete freshly issued device token is rejected by the
admin:authenticate handler with adminSessions untouched. -/
theorem adminAuthenticate_rejects_device_token_witness :
    (verifyToken 0 (generateDeviceToken 0 "adminA" "d1") =
      some { userId := "adminA", deviceId := some "d1",
             type := TokenType.device, iat := some 0, exp := some 86400 }) ∧
    handleAdminAuthenticate 0 "s1" (generateDeviceToken 0 "adminA" "d1")
        (initialRelayState "t0") =
      { initialRelayState "t0" with
        emitted := (initialRelayState "t0").emitted ++
          [emitDirect "s1" "admin:authenticated"
            (.authResult false none (some "Invalid token"))] } := by
  have hv : verifyToken 0 (generateDeviceToken 0 "adminA" "d1") =
      some { userId := "adminA", deviceId := some "d1",
             type := TokenType.device, iat := some 0, exp := some 86400 } := by
    decide
  exact ⟨hv, adminAuthenticate_rejects_device_token 0 "s1" _ _ _ hv rfl⟩
